import Mathlib

/-!
Verification of the SimplePlotter firmware core (three-axis pen-plotter motion
controller) against its natural-language specification.

The development shallowly embeds the firmware's data model and operations:

* machine integers (`long`) become `ℤ`, C `float` values become `ℚ` (all the
  concrete inputs used below are exactly representable in single precision, so
  the rational arithmetic coincides with the float arithmetic of the source);
* the C cast `(long)x` becomes truncation toward zero (`castLong`);
* stateful code becomes explicit state passing; the serial side effects
  (`sendOK`, `sendError`, `sendInfo`, ...) become an output list of `Out`
  values;
* the physical environment (endstop pins, motor motion, the internal
  four-phase homing sequence outcome) is abstracted into a `HomingEnv` record
  of oracle values, since those depend on hardware state outside the program.
  The informational serial chatter printed inside the homing move helpers is
  abstracted to marker `info` outputs; it contains no `ok` terminator in the
  source, which is the only property of it any theorem relies on.

Sources embedded: `src/config.h`, `src/motion/kinematics.{h,cpp}`,
`src/motion/homing.cpp`, `src/motion/stepper_control.cpp` (speed
decomposition), `src/utils/ringbuffer.h`, `src/io/serial_handler.cpp`,
`src/io/endstops.cpp`, and the command dispatcher in `src/main.cpp`.
-/

namespace PenPlotter

/-! ### Configuration constants (`src/config.h`) -/

def X_STEPS_PER_MM : ℚ := 160
def Y_STEPS_PER_MM : ℚ := 160
def Z_STEPS_PER_MM : ℚ := 400
def X_MAX_POS : ℚ := 234
def Y_MAX_POS : ℚ := 191
def Z_MAX_POS : ℚ := 203
def MAX_VELOCITY_XY : ℚ := 100
def MAX_VELOCITY_Z : ℚ := 10
def PEN_UP_Z : ℚ := 3
def Z_HOME_POSITION : ℚ := 2
def HOME_DIR_X : ℤ := 1
def HOME_DIR_Y : ℤ := -1
def HOME_DIR_Z : ℤ := -1
def MAX_ALLOWED_JUMP_MM : ℚ := 1000
def GCODE_BUFFER_SIZE : ℕ := 8
def GCODE_MAX_LENGTH : ℕ := 64
def ENDSTOP_DEBOUNCE_MS : ℕ := 10
def DISABLE_STEPPERS_AFTER_IDLE_S : ℤ := 600

/-! ### Kinematics (`src/motion/kinematics.h`, `kinematics.cpp`) -/

/-- The C cast `(long)q` on a float value: truncation toward zero. -/
def castLong (q : ℚ) : ℤ := if 0 ≤ q then ⌊q⌋ else ⌈q⌉

/-- `Kinematics::mmToStepsX`: `(long)(mm * X_STEPS_PER_MM)`. -/
def mmToStepsX (mm : ℚ) : ℤ := castLong (mm * X_STEPS_PER_MM)

/-- `Kinematics::mmToStepsY`: `(long)(mm * Y_STEPS_PER_MM)`. -/
def mmToStepsY (mm : ℚ) : ℤ := castLong (mm * Y_STEPS_PER_MM)

/-- `Kinematics::mmToStepsZ`: `(long)(mm * Z_STEPS_PER_MM)`. -/
def mmToStepsZ (mm : ℚ) : ℤ := castLong (mm * Z_STEPS_PER_MM)

/-- `Kinematics::stepsToMmX`: `(float)steps / X_STEPS_PER_MM`. -/
def stepsToMmX (steps : ℤ) : ℚ := (steps : ℚ) / X_STEPS_PER_MM

/-- `Kinematics::stepsToMmY`. -/
def stepsToMmY (steps : ℤ) : ℚ := (steps : ℚ) / Y_STEPS_PER_MM

/-- `Kinematics::stepsToMmZ`. -/
def stepsToMmZ (steps : ℤ) : ℚ := (steps : ℚ) / Z_STEPS_PER_MM

/-- `Point3D` (`src/motion/kinematics.h`): a position in millimetres. -/
structure Point3D where
  x : ℚ
  y : ℚ
  z : ℚ
deriving DecidableEq, Repr

/-- `Kinematics::isValidPosition`: soft-limit validation. -/
def isValidPosition (p : Point3D) : Bool :=
  0 ≤ p.x && p.x ≤ X_MAX_POS && (0 ≤ p.y && p.y ≤ Y_MAX_POS) &&
    (0 ≤ p.z && p.z ≤ Z_MAX_POS)

/-! ### Ring buffer (`src/utils/ringbuffer.h`)

The template `RingBuffer<T, N>` is instantiated in the firmware only at
`N = GCODE_BUFFER_SIZE = 8` (`src/gcode/buffer.h`), so the embedding fixes
`N = 8` and keeps the element type generic. -/

structure RingBuffer (α : Type) where
  buffer : Fin 8 → α
  head : ℕ
  tail : ℕ
  count : ℕ

/-- `RingBuffer::push`: fails (returning `false` and leaving the buffer
unchanged) when `count >= N`; otherwise writes at `tail` and advances it. -/
def RingBuffer.push {α : Type} (rb : RingBuffer α) (item : α) :
    Bool × RingBuffer α :=
  if rb.count ≥ 8 then (false, rb)
  else
    (true,
      { rb with
        buffer := fun i => if (i : ℕ) = rb.tail then item else rb.buffer i
        tail := (rb.tail + 1) % 8
        count := rb.count + 1 })

/-- `RingBuffer::pop`: fails when empty; otherwise reads at `head` and
advances it. -/
def RingBuffer.pop {α : Type} (rb : RingBuffer α) :
    Option α × RingBuffer α :=
  if rb.count = 0 then (none, rb)
  else
    (some (rb.buffer ⟨rb.head % 8, Nat.mod_lt _ (by norm_num)⟩),
      { rb with head := (rb.head + 1) % 8, count := rb.count - 1 })

/-- `RingBuffer::isFull`. -/
def RingBuffer.isFull {α : Type} (rb : RingBuffer α) : Bool := rb.count ≥ 8

/-- `RingBuffer::isEmpty`. -/
def RingBuffer.isEmpty {α : Type} (rb : RingBuffer α) : Bool := rb.count = 0

/-- `RingBuffer::size`. -/
def RingBuffer.size {α : Type} (rb : RingBuffer α) : ℕ := rb.count

/-- The freshly constructed buffer (`head = tail = count = 0`). -/
def RingBuffer.init {α : Type} (d : α) : RingBuffer α :=
  { buffer := fun _ => d, head := 0, tail := 0, count := 0 }

/-- One queue operation, as seen by the producer/consumer pair. -/
inductive QOp (α : Type) where
  | push (x : α)
  | pop
deriving Repr

/-- Apply a sequence of queue operations. -/
def RingBuffer.applyOps {α : Type} (rb : RingBuffer α) :
    List (QOp α) → RingBuffer α
  | [] => rb
  | QOp.push x :: ops => ((rb.push x).2).applyOps ops
  | QOp.pop :: ops => (rb.pop.2).applyOps ops

/-- Push a whole list, collecting each push's boolean result. -/
def RingBuffer.pushAll {α : Type} (rb : RingBuffer α) :
    List α → List Bool × RingBuffer α
  | [] => ([], rb)
  | x :: xs =>
    let r := rb.push x
    let rest := (r.2).pushAll xs
    (r.1 :: rest.1, rest.2)

/-- `while (!isEmpty()) pop();` — the queue-drain loop of the `M0` and
`M410` handlers in `src/main.cpp`, with the count as fuel. -/
def RingBuffer.drainAux {α : Type} : ℕ → RingBuffer α → RingBuffer α
  | 0, rb => rb
  | n + 1, rb => RingBuffer.drainAux n rb.pop.2

def RingBuffer.drain {α : Type} (rb : RingBuffer α) : RingBuffer α :=
  RingBuffer.drainAux rb.count rb

/-! ### Serial line assembler (`src/io/serial_handler.cpp`,
`SerialHandler::handleSerialInput`)

The assembler state is the partially accumulated line (`_serial_line` up to
`_line_idx`). Observable effects are the `error:7` sent on overflow and the
invocation of `processIncomingLine()` on a completed non-empty line. -/

inductive SerialEvent where
  | overflowError
  | lineProcessed (line : List Char)
deriving DecidableEq, Repr

structure AssemblerState where
  line : List Char
deriving DecidableEq, Repr

/-- Processing of one incoming byte inside `handleSerialInput`'s drain loop. -/
def serialStep (s : AssemblerState) (c : Char) :
    AssemblerState × List SerialEvent :=
  if c = '\n' ∨ c = '\r' then
    if 0 < s.line.length then (⟨[]⟩, [SerialEvent.lineProcessed s.line])
    else (⟨[]⟩, [])
  else
    if s.line.length < GCODE_MAX_LENGTH then (⟨s.line ++ [c]⟩, [])
    else (⟨[]⟩, [SerialEvent.overflowError])

/-- `handleSerialInput` over a byte stream: fold `serialStep`, concatenating
the emitted events. -/
def handleSerialBytes : AssemblerState → List Char →
    AssemblerState × List SerialEvent
  | s, [] => (s, [])
  | s, c :: cs =>
    let r := serialStep s c
    let rest := handleSerialBytes r.1 cs
    (rest.1, r.2 ++ rest.2)

/-! ### Endstop debouncer (`src/io/endstops.cpp`, `Endstops::isTriggered`)

Per-axis debounce state; a query supplies the current time (`millis()`) and
the polarity-corrected raw pin reading (`getPinTriggeredState`). -/

structure DebounceState where
  lastRaw : Bool
  lastTime : ℕ
  debounced : Bool
deriving DecidableEq, Repr

/-- One `isTriggered` query: if the raw reading differs from the last observed
raw state, restart the debounce timer; if the reading has held longer than the
debounce window, promote it to the stable debounced value. The function
returns the updated state; the value the source returns is its `debounced`
field. -/
def isTriggeredStep (s : DebounceState) (t : ℕ) (raw : Bool) : DebounceState :=
  let s1 := if raw ≠ s.lastRaw then { s with lastTime := t, lastRaw := raw }
            else s
  if ENDSTOP_DEBOUNCE_MS < t - s1.lastTime then { s1 with debounced := raw }
  else s1

/-- A sequence of `isTriggered` queries, each a (time, raw reading) pair. -/
def runQueries (s : DebounceState) (qs : List (ℕ × Bool)) : DebounceState :=
  qs.foldl (fun st q => isTriggeredStep st q.1 q.2) s

/-- The hypothesis of the debounce claim, read along the run: at every query
whose raw reading disagrees with the stable debounced value, the reading is
either newly observed (the timer restarts) or has been held for at most the
debounce window. -/
def flickerOnly : DebounceState → List (ℕ × Bool) → Prop
  | _, [] => True
  | s, (t, r) :: qs =>
    (r ≠ s.debounced → (r ≠ s.lastRaw ∨ t - s.lastTime ≤ ENDSTOP_DEBOUNCE_MS)) ∧
      flickerOnly (isTriggeredStep s t r) qs

/-! ### Parsed commands (`src/gcode/commands.h`) -/

inductive Axis where
  | X
  | Y
  | Z
deriving DecidableEq, Repr, Inhabited

/-- `GCodeParam`, the argument bundle of `G0`/`G1` moves. -/
structure GCodeParam where
  has_x : Bool := false
  x_val : ℚ := 0
  has_y : Bool := false
  y_val : ℚ := 0
  has_z : Bool := false
  z_val : ℚ := 0
  has_f : Bool := false
  f_val : ℚ := 0
deriving DecidableEq, Repr, Inhabited

/-- `G28Params`. -/
structure G28Params where
  home_x : Bool := false
  home_y : Bool := false
  home_z : Bool := false
  home_all : Bool := false
deriving DecidableEq, Repr, Inhabited

/-- `G92Params`. -/
structure G92Params where
  has_x : Bool := false
  x_val : ℚ := 0
  has_y : Bool := false
  y_val : ℚ := 0
  has_z : Bool := false
  z_val : ℚ := 0
deriving DecidableEq, Repr, Inhabited

/-- `M84Params`. -/
structure M84Params where
  has_s : Bool := false
  s_val : ℚ := 0
deriving DecidableEq, Repr, Inhabited

/-- `M220Params`. -/
structure M220Params where
  has_s : Bool := false
  s_val : ℚ := 0
deriving DecidableEq, Repr, Inhabited

/-- `ParsedGCodeCommand`: the tagged union of command kinds with their
argument bundles (the C `union` plus the `GCodeType` tag). -/
inductive ParsedGCodeCommand where
  | G0 (move : GCodeParam)
  | G1 (move : GCodeParam)
  | G28 (g28_args : G28Params)
  | G90
  | G91
  | G92 (g92_args : G92Params)
  | M0
  | M24
  | M25
  | M84 (m84_args : M84Params)
  | M114
  | M115
  | M119
  | M220 (m220_args : M220Params)
  | M410
  | M503
  | M999 (axis : Axis)
  | UNKNOWN
deriving DecidableEq, Repr, Inhabited

/-! ### Serial responses (`src/io/serial_handler.cpp`)

`Out` records one device-to-host line. Informational lines (`sendInfo`) are
tagged by `InfoMsg` rather than carrying the formatted text; where the
source prints several consecutive informational lines whose content no claim
examines (the `M503` report, the `M999` banner, the homing diagnostics), a
single marker stands for the group. -/

inductive InfoMsg where
  | speedFactorApplied
  | endstopHitJog (a : Axis)
  | homingAxisDiag (a : Axis)
  | homingSeqChatter
  | zMovedHome
  | preHomingCheck
  | homingAxisStart (a : Axis)
  | homingResult (x_ok y_ok z_ok : Bool)
  | movingHome
  | allHomed
  | homingComplete
  | absoluteModeSet
  | relativeModeSet
  | positionSet
  | speedFactorSet
  | steppersDisabledMsg
  | m0Stop
  | resumed
  | nothingToResume
  | pausedMsg
  | notRunning
  | settingsReport
  | quickstop
  | motorTest (a : Axis)
deriving DecidableEq, Repr

inductive Out where
  | ok
  | error (code : ℕ)
  | info (m : InfoMsg)
  | position (x y z : ℚ)
  | firmwareBanner
  | endstopStatus (x y z : Bool)
deriving DecidableEq, Repr

/-- Error codes (`src/io/serial_handler.h`, `enum ErrorCode`). -/
def ERR_UNKNOWN_COMMAND : ℕ := 1
def ERR_INVALID_SYNTAX : ℕ := 2
def ERR_OUT_OF_RANGE : ℕ := 3
def ERR_ENDSTOP_HIT : ℕ := 4
def ERR_HOMING_FAILED : ℕ := 5
def ERR_NOT_HOMED : ℕ := 6
def ERR_BUFFER_OVERFLOW : ℕ := 7

/-! ### Machine state (`src/main.cpp` globals, stepper counters, homed flags,
command queue) -/

/-- The three stepper step counters (`AccelStepper::currentPosition`). -/
structure Steppers where
  x : ℤ
  y : ℤ
  z : ℤ
deriving DecidableEq, Repr

def Steppers.get (st : Steppers) : Axis → ℤ
  | Axis.X => st.x
  | Axis.Y => st.y
  | Axis.Z => st.z

/-- The per-axis homed flags (`Homing::_is_homed_{x,y,z}`). -/
structure HomedFlags where
  x : Bool
  y : Bool
  z : Bool
deriving DecidableEq, Repr

def HomedFlags.get (f : HomedFlags) : Axis → Bool
  | Axis.X => f.x
  | Axis.Y => f.y
  | Axis.Z => f.z

/-- SD execution state (`sd_exec_state`). -/
inductive SdExecState where
  | idle
  | running
  | paused
  | done
deriving DecidableEq, Repr

/-- The dispatcher-owned machine state: the `main.cpp` globals together with
the homing flags, the stepper step counters and the command queue. The purely
cosmetic pieces (UI, buzzer, plot preview, activity timestamps) are omitted;
no claim mentions them. -/
structure MachineState where
  pos : Point3D
  absolute_mode : Bool
  current_feedrate_mm_min : ℚ
  speed_factor : ℚ
  homed : HomedFlags
  steppers : Steppers
  queue : RingBuffer ParsedGCodeCommand
  sd_exec_state : SdExecState
  steppers_disabled : Bool
  stepper_disable_timeout_ms : ℤ

/-- The hardware/environment oracle for one dispatched command: the outcome of
the internal four-phase homing sequence per axis, the endstop readings, and
the behaviour of the abort-checked executor during a relative-mode jog. -/
structure HomingEnv where
  /-- Result of `Homing::_singleAxisHomingSequence` for each axis, were it
  attempted during this command. -/
  seqX : Bool
  seqY : Bool
  seqZ : Bool
  /-- Debounced endstop readings (`Endstops::isTriggered`) where the
  dispatcher samples them. -/
  esX : Bool
  esY : Bool
  esZ : Bool
  /-- Whether `StepperControl::runBlockingWithCheck` was stopped by the
  jog-endstop callback. -/
  jogStopped : Bool
  /-- Per-axis `isTriggered` readings taken right after the abort. -/
  trippedX : Bool
  trippedY : Bool
  trippedZ : Bool
  /-- The stepper step counters at the instant the move was aborted. -/
  intSteps : Steppers
deriving Repr

def HomingEnv.seq (e : HomingEnv) : Axis → Bool
  | Axis.X => e.seqX
  | Axis.Y => e.seqY
  | Axis.Z => e.seqZ

/-! ### Homing coordinator (`src/motion/kinematics.cpp`, `Homing::homeAxis`
and `Homing::homeAllAxes`) -/

/-- `Homing::homeAxis`. The internal four-phase sequence is the oracle
`env.seq a`; its serial chatter (which contains no terminator) is the marker
`homingSeqChatter`. On success the axis's homed flag is set and its step
counter is re-seated to zero — for `Z`, the carriage then moves to
`Z_HOME_POSITION`, leaving the counter at `mmToStepsZ Z_HOME_POSITION`. On
failure the step counter of the failed axis is reset to zero so a retry can
travel the full range; the homed flag is left untouched. Returns
(success, homed flags, step counters, serial output). -/
def homeAxis (env : HomingEnv) (a : Axis) (flags : HomedFlags)
    (st : Steppers) : Bool × HomedFlags × Steppers × List Out :=
  let diag : List Out := [Out.info (InfoMsg.homingAxisDiag a)]
  let chatter : List Out := [Out.info InfoMsg.homingSeqChatter]
  if env.seq a then
    match a with
    | Axis.X => (true, { flags with x := true }, { st with x := 0 },
        diag ++ chatter)
    | Axis.Y => (true, { flags with y := true }, { st with y := 0 },
        diag ++ chatter)
    | Axis.Z => (true, { flags with z := true },
        { st with z := mmToStepsZ Z_HOME_POSITION },
        diag ++ chatter ++ [Out.info InfoMsg.zMovedHome])
  else
    let st' := match a with
      | Axis.X => { st with x := 0 }
      | Axis.Y => { st with y := 0 }
      | Axis.Z => { st with z := 0 }
    (false, flags, st', diag ++ chatter ++ [Out.error ERR_HOMING_FAILED])

/-- `Homing::homeAllAxes`: Z first, then X, then Y, every axis attempted
regardless of earlier failures; the homed flags are overwritten with the
per-axis results; on overall success the carriage moves to
`(0, 0, Z_HOME_POSITION)`. Returns (success, flags, counters, output). -/
def homeAllAxes (env : HomingEnv) (flags : HomedFlags) (st : Steppers) :
    Bool × HomedFlags × Steppers × List Out :=
  let o0 : List Out :=
    [Out.info InfoMsg.preHomingCheck, Out.endstopStatus env.esX env.esY env.esZ]
  let rz := homeAxis env Axis.Z flags st
  let z_ok := rz.1
  let f1 : HomedFlags := { rz.2.1 with z := z_ok }
  let rx := homeAxis env Axis.X f1 rz.2.2.1
  let x_ok := rx.1
  let f2 : HomedFlags := { rx.2.1 with x := x_ok }
  let ry := homeAxis env Axis.Y f2 rx.2.2.1
  let y_ok := ry.1
  let f3 : HomedFlags := { ry.2.1 with y := y_ok }
  let outs := o0 ++ [Out.info (InfoMsg.homingAxisStart Axis.Z)] ++ rz.2.2.2 ++
      [Out.info (InfoMsg.homingAxisStart Axis.X)] ++ rx.2.2.2 ++
      [Out.info (InfoMsg.homingAxisStart Axis.Y)] ++ ry.2.2.2 ++
      [Out.info (InfoMsg.homingResult x_ok y_ok z_ok)]
  if x_ok && y_ok && z_ok then
    (true, f3, { x := 0, y := 0, z := mmToStepsZ Z_HOME_POSITION },
      outs ++ [Out.info InfoMsg.movingHome, Out.info InfoMsg.allHomed])
  else
    (false, f3, ry.2.2.1, outs ++ [Out.error ERR_HOMING_FAILED])

/-- The axes a serial-output list records homing attempts for, in order
(each `homeAxis` call opens with its diagnostics marker). -/
def attemptedAxes (outs : List Out) : List Axis :=
  outs.filterMap fun o =>
    match o with
    | Out.info (InfoMsg.homingAxisDiag a) => some a
    | _ => none

/-! ### The G0/G1 move handler (`src/main.cpp`, `loop`, cases `GCODE_G0` and
`GCODE_G1`) -/

/-- Target composition: apply the present fields, then (in relative mode)
re-derive them as offsets from the current position. -/
def moveTarget (s : MachineState) (m : GCodeParam) : Point3D :=
  let t0 : Point3D :=
    { x := if m.has_x then m.x_val else s.pos.x
      y := if m.has_y then m.y_val else s.pos.y
      z := if m.has_z then m.z_val else s.pos.z }
  if s.absolute_mode then t0
  else
    { x := if m.has_x then s.pos.x + m.x_val else t0.x
      y := if m.has_y then s.pos.y + m.y_val else t0.y
      z := if m.has_z then s.pos.z + m.z_val else t0.z }

/-- The squared Euclidean length of the move (`jump_distance_sq`). -/
def moveJumpSq (s : MachineState) (m : GCodeParam) : ℚ :=
  let t := moveTarget s m
  (t.x - s.pos.x) ^ 2 + (t.y - s.pos.y) ^ 2 + (t.z - s.pos.z) ^ 2

/-- The absolute-mode per-axis homing requirement: some named axis is not
homed. -/
def namesUnhomed (s : MachineState) (m : GCodeParam) : Bool :=
  (m.has_x && !s.homed.x) || (m.has_y && !s.homed.y) || (m.has_z && !s.homed.z)

/-- `speed_factor` application (`main.cpp` lines 157–164):
`feedrate * (speed_factor / 100)` when the factor is not 100 %. -/
def effectiveFeedrate (feedrate_mm_min speed_factor : ℚ) : ℚ :=
  if speed_factor ≠ 100 then feedrate_mm_min * (speed_factor / 100)
  else feedrate_mm_min

/-- The per-axis speed decomposition (`main.cpp` lines 203–215): each axis
gets the feed rate scaled by its share of the move vector; when the total
distance is negligible the raw feed rate is used for X and Y and
`MAX_VELOCITY_Z` for Z; only the Z component is then clamped to
`MAX_VELOCITY_Z`. `total_dist` is the caller-computed value of
`sqrtf(dx*dx + dy*dy + dz*dz)`. Returns the mm/s speeds `(vx, vy, vz)`
subsequently seated on the channels via `setMaxSpeed` (converted to steps/s
there, with zero values skipped). -/
def speedDecomp (dx dy dz total_dist feedrate_mm_s : ℚ) : ℚ × ℚ × ℚ :=
  let v :=
    if total_dist > 1 / 1000 then
      (feedrate_mm_s * (|dx| / total_dist),
        feedrate_mm_s * (|dy| / total_dist),
        feedrate_mm_s * (|dz| / total_dist))
    else (feedrate_mm_s, feedrate_mm_s, MAX_VELOCITY_Z)
  (v.1, v.2.1, min v.2.2 MAX_VELOCITY_Z)

/-- The jog-endstop guard flags (`_jog_check_{x,y,z}`): a named axis counts
when its commanded offset points toward the axis's home endstop (beyond the
±0.001 dead band). -/
def jogChecks (m : GCodeParam) : Bool × Bool × Bool :=
  (m.has_x &&
      (if HOME_DIR_X < 0 then decide (m.x_val < -(1 / 1000))
       else decide (m.x_val > 1 / 1000)),
    m.has_y &&
      (if HOME_DIR_Y < 0 then decide (m.y_val < -(1 / 1000))
       else decide (m.y_val > 1 / 1000)),
    m.has_z &&
      (if HOME_DIR_Z < 0 then decide (m.z_val < -(1 / 1000))
       else decide (m.z_val > 1 / 1000)))

/-- The axis the dispatcher identifies after an aborted jog
(`endstop_triggered`): the first of X, Y, Z that was both guarded and reads
triggered. -/
def jogTrigAxis (env : HomingEnv) (m : GCodeParam) : Option Axis :=
  let c := jogChecks m
  if c.1 && env.trippedX then some Axis.X
  else if c.2.1 && env.trippedY then some Axis.Y
  else if c.2.2 && env.trippedZ then some Axis.Z
  else none

/-- The `GCODE_G0`/`GCODE_G1` handler. The channel max-speed/acceleration
registers are not part of the modelled state (their computation is
`speedDecomp`); the pulse generation is summarised by its net effect on the
step counters: the planned target on normal completion, the abort-instant
counters from the environment on an endstop abort. -/
def execMove (env : HomingEnv) (s : MachineState) (m : GCodeParam) :
    MachineState × List Out :=
  let target := moveTarget s m
  let oSpeed : List Out :=
    if s.speed_factor ≠ 100 then [Out.info InfoMsg.speedFactorApplied] else []
  if moveJumpSq s m > MAX_ALLOWED_JUMP_MM ^ 2 then
    (s, oSpeed ++ [Out.error ERR_OUT_OF_RANGE, Out.ok])
  else if s.absolute_mode && namesUnhomed s m then
    (s, oSpeed ++ [Out.error ERR_NOT_HOMED, Out.ok])
  else if s.absolute_mode && !isValidPosition target then
    (s, oSpeed ++ [Out.error ERR_OUT_OF_RANGE, Out.ok])
  else
    let tsteps : Steppers :=
      { x := mmToStepsX target.x, y := mmToStepsY target.y,
        z := mmToStepsZ target.z }
    if !s.absolute_mode then
      let c := jogChecks m
      if c.1 || c.2.1 || c.2.2 then
        if env.jogStopped then
          match jogTrigAxis env m with
          | some a =>
            let p1 : Point3D :=
              { x := stepsToMmX env.intSteps.x, y := stepsToMmY env.intSteps.y,
                z := stepsToMmZ env.intSteps.z }
            let r := homeAxis env a s.homed env.intSteps
            let p2 : Point3D :=
              match a with
              | Axis.X => { p1 with x := if HOME_DIR_X = 1 then X_MAX_POS else 0 }
              | Axis.Y => { p1 with y := if HOME_DIR_Y = 1 then Y_MAX_POS else 0 }
              | Axis.Z => { p1 with z := PEN_UP_Z }
            let stF : Steppers :=
              { x := mmToStepsX p2.x, y := mmToStepsY p2.y, z := mmToStepsZ p2.z }
            ({ s with
                pos := p2
                homed := r.2.1
                steppers := stF
                steppers_disabled := false },
              oSpeed ++ [Out.info (InfoMsg.endstopHitJog a)] ++ r.2.2.2 ++
                [Out.ok])
          | none =>
            ({ s with
                pos := target
                steppers := env.intSteps
                steppers_disabled := false },
              oSpeed ++ [Out.ok])
        else
          ({ s with
              pos := target
              steppers := tsteps
              steppers_disabled := false },
            oSpeed ++ [Out.ok])
      else
        ({ s with
            pos := target
            steppers := tsteps
            steppers_disabled := false },
          oSpeed ++ [Out.ok])
    else
      ({ s with
          pos := target
          steppers := tsteps
          steppers_disabled := false },
        oSpeed ++ [Out.ok])

/-! ### The G28 handler and the rest of the dispatcher (`src/main.cpp`,
`loop`) -/

/-- The `GCODE_G28` handler: run homing for the selected axes (X, then Y,
then Z when named individually; `homeAllAxes` otherwise), then re-derive the
logical position from whichever axes are flagged homed and re-seat the step
counters from it. -/
def execHome (env : HomingEnv) (s : MachineState) (g : G28Params) :
    MachineState × List Out :=
  let r :=
    if g.home_all then homeAllAxes env s.homed s.steppers
    else
      let rx := if g.home_x then homeAxis env Axis.X s.homed s.steppers
        else (true, s.homed, s.steppers, ([] : List Out))
      let ry := if g.home_y then homeAxis env Axis.Y rx.2.1 rx.2.2.1
        else (true, rx.2.1, rx.2.2.1, ([] : List Out))
      let rz := if g.home_z then homeAxis env Axis.Z ry.2.1 ry.2.2.1
        else (true, ry.2.1, ry.2.2.1, ([] : List Out))
      (rx.1 && ry.1 && rz.1, rz.2.1, rz.2.2.1,
        rx.2.2.2 ++ ry.2.2.2 ++ rz.2.2.2)
  let flags := r.2.1
  let pos1 : Point3D :=
    { x := if flags.x then (if HOME_DIR_X = 1 then X_MAX_POS else 0) else s.pos.x
      y := if flags.y then (if HOME_DIR_Y = 1 then Y_MAX_POS else 0) else s.pos.y
      z := if flags.z then Z_HOME_POSITION else s.pos.z }
  let st' : Steppers :=
    { x := mmToStepsX pos1.x, y := mmToStepsY pos1.y, z := mmToStepsZ pos1.z }
  ({ s with
      pos := pos1
      homed := flags
      steppers := st'
      steppers_disabled := false },
    r.2.2.2 ++
      (if r.1 then [Out.info InfoMsg.homingComplete]
       else [Out.error ERR_HOMING_FAILED]) ++ [Out.ok])

/-- The dispatcher's command switch (`src/main.cpp`, `loop`): execute one
popped command to completion and emit its responses, the terminator last. -/
def dispatchCommand (env : HomingEnv) (s : MachineState) :
    ParsedGCodeCommand → MachineState × List Out
  | ParsedGCodeCommand.G0 m => execMove env s m
  | ParsedGCodeCommand.G1 m => execMove env s m
  | ParsedGCodeCommand.G28 g => execHome env s g
  | ParsedGCodeCommand.G90 =>
    ({ s with absolute_mode := true },
      [Out.info InfoMsg.absoluteModeSet, Out.ok])
  | ParsedGCodeCommand.G91 =>
    ({ s with absolute_mode := false },
      [Out.info InfoMsg.relativeModeSet, Out.ok])
  | ParsedGCodeCommand.G92 g =>
    let p : Point3D :=
      { x := if g.has_x then g.x_val else s.pos.x
        y := if g.has_y then g.y_val else s.pos.y
        z := if g.has_z then g.z_val else s.pos.z }
    ({ s with
        pos := p
        steppers :=
          { x := mmToStepsX p.x, y := mmToStepsY p.y, z := mmToStepsZ p.z } },
      [Out.info InfoMsg.positionSet, Out.ok])
  | ParsedGCodeCommand.M0 =>
    ({ s with
        queue := s.queue.drain
        sd_exec_state :=
          if s.sd_exec_state = SdExecState.running ∨
              s.sd_exec_state = SdExecState.paused then SdExecState.done
          else s.sd_exec_state
        steppers_disabled := true },
      [Out.info InfoMsg.m0Stop, Out.ok])
  | ParsedGCodeCommand.M24 =>
    if s.sd_exec_state = SdExecState.paused then
      ({ s with sd_exec_state := SdExecState.running },
        [Out.info InfoMsg.resumed, Out.ok])
    else (s, [Out.info InfoMsg.nothingToResume, Out.ok])
  | ParsedGCodeCommand.M25 =>
    if s.sd_exec_state = SdExecState.running then
      ({ s with sd_exec_state := SdExecState.paused },
        [Out.info InfoMsg.pausedMsg, Out.ok])
    else (s, [Out.info InfoMsg.notRunning, Out.ok])
  | ParsedGCodeCommand.M84 a =>
    if a.has_s then
      if a.s_val = 0 then
        ({ s with stepper_disable_timeout_ms := 0, steppers_disabled := true },
          [Out.info InfoMsg.steppersDisabledMsg, Out.ok])
      else
        ({ s with
            stepper_disable_timeout_ms := castLong a.s_val * 1000
            steppers_disabled := true },
          [Out.info InfoMsg.steppersDisabledMsg, Out.ok])
    else
      ({ s with
          steppers_disabled := true
          stepper_disable_timeout_ms :=
            if DISABLE_STEPPERS_AFTER_IDLE_S > 0 then
              DISABLE_STEPPERS_AFTER_IDLE_S * 1000
            else 0 },
        [Out.info InfoMsg.steppersDisabledMsg, Out.ok])
  | ParsedGCodeCommand.M114 =>
    (s, [Out.position s.pos.x s.pos.y s.pos.z, Out.ok])
  | ParsedGCodeCommand.M115 => (s, [Out.firmwareBanner, Out.ok])
  | ParsedGCodeCommand.M119 =>
    (s, [Out.endstopStatus env.esX env.esY env.esZ, Out.ok])
  | ParsedGCodeCommand.M220 a =>
    if a.has_s then
      ({ s with speed_factor := max 1 (min a.s_val 999) },
        [Out.info InfoMsg.speedFactorSet, Out.ok])
    else (s, [Out.ok])
  | ParsedGCodeCommand.M410 =>
    ({ s with queue := s.queue.drain, steppers_disabled := true },
      [Out.info InfoMsg.quickstop, Out.ok])
  | ParsedGCodeCommand.M503 => (s, [Out.info InfoMsg.settingsReport, Out.ok])
  | ParsedGCodeCommand.M999 a => (s, [Out.info (InfoMsg.motorTest a), Out.ok])
  | ParsedGCodeCommand.UNKNOWN =>
    (s, [Out.error ERR_UNKNOWN_COMMAND, Out.ok])

/-! ### The serial producer (`src/io/serial_handler.cpp`,
`SerialHandler::processIncomingLine`)

The parser itself (`GCodeParser::parse`) is out of reach of the claims; the
producer is modelled as a function of the parse result. -/

/-- `processIncomingLine` on a completed line whose parse result is `cmd`:
an `UNKNOWN` parse gets its error and the terminator; a full queue gets
`error 7` and the terminator; otherwise the command is pushed and nothing is
sent (the terminator is the consumer's responsibility). -/
def processIncomingLine (cmd : ParsedGCodeCommand)
    (q : RingBuffer ParsedGCodeCommand) :
    RingBuffer ParsedGCodeCommand × List Out :=
  if cmd = ParsedGCodeCommand.UNKNOWN then
    (q, [Out.error ERR_UNKNOWN_COMMAND, Out.ok])
  else if q.isFull then
    (q, [Out.error ERR_BUFFER_OVERFLOW, Out.ok])
  else ((q.push cmd).2, [])

/-! ### Auxiliary accessors and concrete fixtures -/

def Point3D.get (p : Point3D) : Axis → ℚ
  | Axis.X => p.x
  | Axis.Y => p.y
  | Axis.Z => p.z

/-- The spec's claimed formula for the per-axis speed delivered to a stepper
channel (claim C4, stated from the spec's words for comparison with
`speedDecomp`): `min(maxVelocity_axis, F_commanded × speedFactor/100)`
converted to mm/s, scaled by the axis's share `|Δaxis|/‖Δ‖`. -/
def specClaimedSpeed (maxVel fCommanded factor dAxis dist : ℚ) : ℚ :=
  min maxVel (fCommanded * factor / 100 / 60) * (|dAxis| / dist)

/-- The machine state right after `setup()` (`src/main.cpp`): origin, absolute
mode, default feed rate, 100 % speed factor, nothing homed, empty queue. -/
def bootState : MachineState where
  pos := ⟨0, 0, 0⟩
  absolute_mode := true
  current_feedrate_mm_min := MAX_VELOCITY_XY * 60
  speed_factor := 100
  homed := ⟨false, false, false⟩
  steppers := ⟨0, 0, 0⟩
  queue := RingBuffer.init ParsedGCodeCommand.UNKNOWN
  sd_exec_state := SdExecState.idle
  steppers_disabled := true
  stepper_disable_timeout_ms := DISABLE_STEPPERS_AFTER_IDLE_S * 1000

/-- An environment oracle in which no endstop trips and every homing
sequence succeeds. -/
def quietEnv : HomingEnv where
  seqX := true
  seqY := true
  seqZ := true
  esX := false
  esY := false
  esZ := false
  jogStopped := false
  trippedX := false
  trippedY := false
  trippedZ := false
  intSteps := ⟨0, 0, 0⟩

/-- An environment in which a relative-mode jog is aborted by the Z endstop
at step counters `(800, 800, 100)`, and the subsequent auto-home of Z
succeeds. -/
def jogTripZEnv : HomingEnv where
  seqX := true
  seqY := true
  seqZ := true
  esX := false
  esY := false
  esZ := true
  jogStopped := true
  trippedX := false
  trippedY := false
  trippedZ := true
  intSteps := ⟨800, 800, 100⟩

/-- An environment in which the X homing sequence fails (for example by
timing out) while Y and Z would succeed. -/
def failXEnv : HomingEnv where
  seqX := false
  seqY := true
  seqZ := true
  esX := false
  esY := false
  esZ := false
  jogStopped := false
  trippedX := false
  trippedY := false
  trippedZ := false
  intSteps := ⟨0, 0, 0⟩

/-- A machine state in relative mode at `(0, 0, 5)` with nothing homed
(a fresh boot followed by `G91` and a jog up). -/
def relStateZ5 : MachineState :=
  { bootState with
      absolute_mode := false
      pos := ⟨0, 0, 5⟩
      steppers := ⟨0, 0, 2000⟩ }

/-- A machine state in absolute mode at `(5, 0, 0)` with the X axis flagged
homed (a successful `G28 X` followed by `G0 X5`). -/
def homedXAt5 : MachineState :=
  { bootState with
      pos := ⟨5, 0, 0⟩
      homed := ⟨true, false, false⟩
      steppers := ⟨800, 0, 0⟩ }

/-- A full command queue (8 occupied slots). -/
def fullQueue : RingBuffer ParsedGCodeCommand :=
  { buffer := fun _ => ParsedGCodeCommand.G90
    head := 0
    tail := 0
    count := 8 }

/-! ## Helper lemmas -/

theorem castLong_intCast (n : ℤ) : castLong (n : ℚ) = n := by
  unfold castLong
  split_ifs <;> simp

theorem abs_castLong_sub_lt_one (q : ℚ) : |(castLong q : ℚ) - q| < 1 := by
  unfold castLong
  split_ifs with h
  · rw [abs_lt]
    refine ⟨?_, ?_⟩
    · have := Int.lt_floor_add_one q
      linarith
    · have := Int.floor_le q
      linarith
  · rw [abs_lt]
    refine ⟨?_, ?_⟩
    · have := Int.le_ceil q
      linarith
    · have := Int.ceil_lt_add_one q
      linarith

theorem castLong_div_roundtrip (v c : ℚ) (hc : 0 < c) :
    |(castLong (v * c) : ℚ) / c - v| < 1 / c := by
  have h := abs_castLong_sub_lt_one (v * c)
  have e : (castLong (v * c) : ℚ) / c - v =
      ((castLong (v * c) : ℚ) - v * c) / c := by
    field_simp
    ring
  rw [e, abs_div, abs_of_pos hc]
  gcongr

theorem castLong_div_mul (n : ℤ) (c : ℚ) (hc : c ≠ 0) :
    castLong ((n : ℚ) / c * c) = n := by
  rw [div_mul_cancel₀ _ hc, castLong_intCast]

/-! ## Claim C5 — mm/steps conversion

The claim states `mmToSteps(axis, v) = round(v × stepsPerMm[axis])`. The code
(`src/motion/kinematics.h` lines 26–28) computes
`(long)(mm * STEPS_PER_MM)`, a truncation toward zero, not a
round-to-nearest. Status: corrected. -/

/-- C5 counterexample: at `v = 3/256` mm on the X axis (a value exactly
representable in single-precision float, whose product with 160 is the exact
float 1.875), the code truncates to 1 step while round-to-nearest gives
2 steps. -/
theorem claim_C5_counterexample :
    mmToStepsX (3 / 256) = 1 ∧
      round ((3 / 256 : ℚ) * X_STEPS_PER_MM) = 2 ∧ (1 : ℤ) ≠ 2 := by
  refine ⟨?_, ?_, by decide⟩
  · norm_num [mmToStepsX, castLong, X_STEPS_PER_MM]
  · norm_num [X_STEPS_PER_MM, round_eq]

/-- C5 (amended): for every axis, `mmToSteps` is the truncation toward zero
of `v × stepsPerMm[axis]` — not round-to-nearest — and `stepsToMm` is its
inverse up to that truncation: the round trip lands within one step
(`< 1/stepsPerMm[axis]`) of the original value, and on whole-step values the
conversions invert each other exactly. -/
theorem claim_C5_amended (v : ℚ) (n : ℤ) :
    |stepsToMmX (mmToStepsX v) - v| < 1 / X_STEPS_PER_MM ∧
    |stepsToMmY (mmToStepsY v) - v| < 1 / Y_STEPS_PER_MM ∧
    |stepsToMmZ (mmToStepsZ v) - v| < 1 / Z_STEPS_PER_MM ∧
    mmToStepsX (stepsToMmX n) = n ∧
    mmToStepsY (stepsToMmY n) = n ∧
    mmToStepsZ (stepsToMmZ n) = n := by
  refine ⟨?_, ?_, ?_, ?_, ?_, ?_⟩
  · exact castLong_div_roundtrip v X_STEPS_PER_MM (by norm_num [X_STEPS_PER_MM])
  · exact castLong_div_roundtrip v Y_STEPS_PER_MM (by norm_num [Y_STEPS_PER_MM])
  · exact castLong_div_roundtrip v Z_STEPS_PER_MM (by norm_num [Z_STEPS_PER_MM])
  · exact castLong_div_mul n X_STEPS_PER_MM (by norm_num [X_STEPS_PER_MM])
  · exact castLong_div_mul n Y_STEPS_PER_MM (by norm_num [Y_STEPS_PER_MM])
  · exact castLong_div_mul n Z_STEPS_PER_MM (by norm_num [Z_STEPS_PER_MM])

/-! ## Claim C3 — queue bound -/

theorem push_count_le {α : Type} (rb : RingBuffer α) (x : α)
    (h : rb.count ≤ 8) : ((rb.push x).2).count ≤ 8 := by
  unfold RingBuffer.push
  split_ifs with hf
  · exact h
  · simp only [not_le] at hf
    show rb.count + 1 ≤ 8
    omega

theorem pop_count_le {α : Type} (rb : RingBuffer α)
    (h : rb.count ≤ 8) : (rb.pop.2).count ≤ 8 := by
  unfold RingBuffer.pop
  split_ifs with hz
  · exact h
  · show rb.count - 1 ≤ 8
    omega

theorem applyOps_count_le {α : Type} (ops : List (QOp α)) (rb : RingBuffer α)
    (h : rb.count ≤ 8) : (rb.applyOps ops).count ≤ 8 := by
  induction ops generalizing rb with
  | nil => exact h
  | cons op ops ih =>
    cases op with
    | push x => exact ih _ (push_count_le rb x h)
    | pop => exact ih _ (pop_count_le rb h)

theorem pushAll_count_of_all_true {α : Type} (xs : List α) (rb : RingBuffer α)
    (h : ∀ b ∈ (rb.pushAll xs).1, b = true) :
    ((rb.pushAll xs).2).count = rb.count + xs.length := by
  induction xs generalizing rb with
  | nil => simp [RingBuffer.pushAll]
  | cons x xs ih =>
    simp only [RingBuffer.pushAll, List.mem_cons, forall_eq_or_imp] at h
    obtain ⟨h1, h2⟩ := h
    have hsucc : ((rb.push x).2).count = rb.count + 1 := by
      rcases Nat.lt_or_ge rb.count 8 with hlt | hge
      · unfold RingBuffer.push
        rw [if_neg (by omega)]
      · exfalso
        unfold RingBuffer.push at h1
        rw [if_pos hge] at h1
        exact Bool.false_ne_true h1
    simp only [RingBuffer.pushAll]
    rw [ih _ h2, hsucc, List.length_cons]
    omega

theorem pushAll_count_le {α : Type} (xs : List α) (rb : RingBuffer α)
    (h : rb.count ≤ 8) : ((rb.pushAll xs).2).count ≤ 8 := by
  induction xs generalizing rb with
  | nil => exact h
  | cons x xs ih => exact ih _ (push_count_le rb x h)

/-- C3: the queue bound. From any queue state within its capacity, (1) no
sequence of push/pop operations ever takes the count above
`GCODE_BUFFER_SIZE = 8`; (2) a push onto a full queue returns `false` and
leaves the queue — contents, indices and count — exactly unchanged; (3) the
serial producer, handed a well-parsed command while the queue is full,
responds `error:7` (buffer overflow) followed by the terminator and drops the
command, leaving the queue unchanged; and (4) nine consecutive pushes with no
intervening pop can never all succeed. -/
theorem claim_C3 {α : Type} (rb0 rb : RingBuffer α) (ops : List (QOp α))
    (x : α) (xs : List α)
    (q : RingBuffer ParsedGCodeCommand) (cmd : ParsedGCodeCommand)
    (h0 : rb0.count ≤ GCODE_BUFFER_SIZE)
    (hrb : rb.count ≤ GCODE_BUFFER_SIZE) :
    (rb0.applyOps ops).count ≤ GCODE_BUFFER_SIZE ∧
    (rb.isFull = true → rb.push x = (false, rb)) ∧
    (cmd ≠ ParsedGCodeCommand.UNKNOWN → q.isFull = true →
      processIncomingLine cmd q = (q, [Out.error ERR_BUFFER_OVERFLOW, Out.ok])) ∧
    (xs.length = 9 → ¬ ∀ b ∈ (rb.pushAll xs).1, b = true) := by
  refine ⟨applyOps_count_le ops rb0 h0, ?_, ?_, ?_⟩
  · intro hfull
    simp only [RingBuffer.isFull, decide_eq_true_eq] at hfull
    unfold RingBuffer.push
    rw [if_pos hfull]
  · intro hcmd hfull
    unfold processIncomingLine
    rw [if_neg hcmd, if_pos hfull]
  · intro hlen hall
    have hc := pushAll_count_of_all_true xs rb hall
    have hle := pushAll_count_le xs rb hrb
    rw [hc, hlen] at hle
    omega

/-- Witness for C3 at concrete inputs: nine pushes onto the fresh empty queue
do not all succeed, the op-sequence bound holds for them, and the full queue
rejects a `G90` with `error:7`. -/
theorem claim_C3_witness :
    ((RingBuffer.init (0 : ℕ)).applyOps
        (List.replicate 9 (QOp.push 1))).count ≤ GCODE_BUFFER_SIZE ∧
    (¬ ∀ b ∈ ((RingBuffer.init (0 : ℕ)).pushAll (List.replicate 9 1)).1,
        b = true) ∧
    processIncomingLine ParsedGCodeCommand.G90 fullQueue =
      (fullQueue, [Out.error ERR_BUFFER_OVERFLOW, Out.ok]) := by
  have h := claim_C3 (RingBuffer.init (0 : ℕ)) (RingBuffer.init (0 : ℕ))
    (List.replicate 9 (QOp.push 1)) 0 (List.replicate 9 1)
    fullQueue ParsedGCodeCommand.G90
    (Nat.zero_le _) (Nat.zero_le _)
  exact ⟨h.1, h.2.2.2 (by simp), h.2.2.1 (by simp) (by decide)⟩

/-! ## Claim C10 — endstop debounce -/

theorem isTriggeredStep_debounced (s : DebounceState) (t : ℕ) (r : Bool)
    (h : r ≠ s.debounced →
      (r ≠ s.lastRaw ∨ t - s.lastTime ≤ ENDSTOP_DEBOUNCE_MS)) :
    (isTriggeredStep s t r).debounced = s.debounced := by
  by_cases hraw : r ≠ s.lastRaw
  · simp only [isTriggeredStep, if_pos hraw]
    split_ifs with hp
    · exact absurd (Nat.sub_self t ▸ hp) (Nat.not_lt_zero _)
    · rfl
  · simp only [isTriggeredStep, if_neg hraw]
    split_ifs with hp
    · show r = s.debounced
      by_cases hr : r = s.debounced
      · exact hr
      · rcases h hr with h1 | h2
        · exact absurd h1 hraw
        · exact absurd hp (not_lt.mpr h2)
    · rfl

/-- C10: along any sequence of `isTriggered` queries in which no raw reading
that disagrees with the stable debounced value is ever observed held for
longer than the debounce window, the debounced value returned by every query
equals the initial one — in particular a flicker shorter than the window
never promotes to `isTriggered = true`. -/
theorem claim_C10 (s : DebounceState) (qs : List (ℕ × Bool))
    (h : flickerOnly s qs) (p q : List (ℕ × Bool)) (hpq : qs = p ++ q) :
    (runQueries s p).debounced = s.debounced := by
  induction p generalizing s qs q with
  | nil => rfl
  | cons a p ih =>
    obtain ⟨t, r⟩ := a
    subst hpq
    simp only [flickerOnly, List.cons_append] at h
    obtain ⟨h1, h2⟩ := h
    have step := isTriggeredStep_debounced s t r h1
    calc (runQueries s ((t, r) :: p)).debounced
        = (runQueries (isTriggeredStep s t r) p).debounced := rfl
      _ = (isTriggeredStep s t r).debounced := by
          exact ih _ _ h2 q rfl
      _ = s.debounced := step

/-- Witness for C10: a 5 ms flicker of the raw reading (queries at 3 ms and
8 ms reading `true`, then `false` again at 12 ms) never changes the
debounced value from `false`. -/
theorem claim_C10_witness :
    flickerOnly ⟨false, 0, false⟩ [(3, true), (8, true), (12, false)] ∧
    (runQueries ⟨false, 0, false⟩ [(3, true), (8, true)]).debounced = false := by
  have hf : flickerOnly ⟨false, 0, false⟩ [(3, true), (8, true), (12, false)] := by
    norm_num [flickerOnly, isTriggeredStep, ENDSTOP_DEBOUNCE_MS]
  exact ⟨hf, claim_C10 ⟨false, 0, false⟩ [(3, true), (8, true), (12, false)] hf
    [(3, true), (8, true)] [(12, false)] rfl⟩

/-! ## Claim C9 — overlong serial lines -/

theorem handleSerialBytes_append (s : AssemblerState) (a b : List Char) :
    handleSerialBytes s (a ++ b) =
      ((handleSerialBytes (handleSerialBytes s a).1 b).1,
        (handleSerialBytes s a).2 ++
          (handleSerialBytes (handleSerialBytes s a).1 b).2) := by
  induction a generalizing s with
  | nil => simp [handleSerialBytes]
  | cons c cs ih =>
    simp only [List.cons_append, handleSerialBytes, List.append_eq]
    rw [ih]
    simp [List.append_assoc]

theorem handleSerialBytes_accumulate (t : List Char) (s : AssemblerState)
    (hterm : ∀ c ∈ t, ¬(c = '\n' ∨ c = '\r'))
    (hlen : s.line.length + t.length ≤ GCODE_MAX_LENGTH) :
    handleSerialBytes s t = (⟨s.line ++ t⟩, []) := by
  induction t generalizing s with
  | nil => simp [handleSerialBytes]
  | cons c cs ih =>
    have hc := hterm c (List.mem_cons_self c cs)
    have hlt : s.line.length < GCODE_MAX_LENGTH := by
      simp only [List.length_cons] at hlen
      omega
    simp only [handleSerialBytes, serialStep, if_neg hc, if_pos hlt]
    rw [ih ⟨s.line ++ [c]⟩ (fun d hd => hterm d (List.mem_cons_of_mem c hd))
      (by simp only [List.length_cons] at hlen ⊢
          simp only [List.length_append, List.length_singleton]
          omega)]
    simp

theorem handleSerialBytes_newline (s : AssemblerState) (hne : s.line ≠ []) :
    handleSerialBytes s ['\n'] = (⟨[]⟩, [SerialEvent.lineProcessed s.line]) := by
  simp only [handleSerialBytes, serialStep]
  simp [List.length_pos, hne]

theorem overflow_resets :
    handleSerialBytes ⟨[]⟩ (List.replicate (GCODE_MAX_LENGTH + 1) 'G') =
      (⟨[]⟩, [SerialEvent.overflowError]) := by
  rw [List.replicate_succ' (n := GCODE_MAX_LENGTH), handleSerialBytes_append]
  rw [handleSerialBytes_accumulate (List.replicate GCODE_MAX_LENGTH 'G') ⟨[]⟩
    (by decide) (by simp)]
  decide

/-- C9 (amended): when an incoming byte would exceed the 64-character line
buffer, the write index is reset and `error:7` is sent — but the remaining
bytes of the overlong line are *not* discarded: they accumulate as a fresh
line, and the tail preceding the next CR/LF terminator is processed as its
own line. Here: after 65 overflow bytes, any non-empty terminator-free tail
`t` of at most 64 bytes followed by a newline is parsed and processed as the
line `t`. -/
theorem claim_C9_amended (t : List Char)
    (hterm : ∀ c ∈ t, ¬(c = '\n' ∨ c = '\r'))
    (hlen : t.length ≤ GCODE_MAX_LENGTH) (hne : t ≠ []) :
    (handleSerialBytes ⟨[]⟩
        (List.replicate (GCODE_MAX_LENGTH + 1) 'G' ++ (t ++ ['\n']))).2 =
      [SerialEvent.overflowError, SerialEvent.lineProcessed t] := by
  rw [handleSerialBytes_append, overflow_resets]
  have h2 : handleSerialBytes (⟨[]⟩ : AssemblerState) (t ++ ['\n']) =
      (⟨[]⟩, [SerialEvent.lineProcessed t]) := by
    rw [handleSerialBytes_append,
      handleSerialBytes_accumulate t ⟨[]⟩ hterm (by simpa using hlen)]
    simpa using handleSerialBytes_newline ⟨[] ++ t⟩ (by simpa using hne)
  rw [h2]
  simp

/-- C9 counterexample: the byte stream of 65 `G`s followed by `M114` and a
newline. The claim says every byte of the overlong line up to the terminator
is discarded, so no line would be processed; the code instead processes the
tail `M114` as a fresh command line. -/
theorem claim_C9_counterexample :
    (handleSerialBytes ⟨[]⟩
        (List.replicate 65 'G' ++ ("M114".toList ++ ['\n']))).2 =
      [SerialEvent.overflowError, SerialEvent.lineProcessed "M114".toList] := by
  decide

/-- Witness for C9 (amended) at the tail `M114`. -/
theorem claim_C9_witness :
    (handleSerialBytes ⟨[]⟩
        (List.replicate (GCODE_MAX_LENGTH + 1) 'G' ++
          ("M114".toList ++ ['\n']))).2 =
      [SerialEvent.overflowError, SerialEvent.lineProcessed "M114".toList] :=
  claim_C9_amended "M114".toList (by decide) (by decide) (by decide)

/-! ## Claim C8 — home-all order and reporting -/

/-- C8: `homeAllAxes` attempts the axes in the order Z, X, Y — all three are
attempted regardless of earlier failures — the resulting homed flags are
exactly the per-axis sequence results, those results are reported in a single
per-axis result line, and the overall result is success iff all three axes
succeeded. -/
theorem claim_C8 (env : HomingEnv) (flags : HomedFlags) (st : Steppers) :
    attemptedAxes (homeAllAxes env flags st).2.2.2 =
      [Axis.Z, Axis.X, Axis.Y] ∧
    (homeAllAxes env flags st).2.1 = ⟨env.seqX, env.seqY, env.seqZ⟩ ∧
    Out.info (InfoMsg.homingResult env.seqX env.seqY env.seqZ) ∈
      (homeAllAxes env flags st).2.2.2 ∧
    ((homeAllAxes env flags st).1 = true ↔
      env.seqX = true ∧ env.seqY = true ∧ env.seqZ = true) := by
  obtain ⟨sx, sy, sz, ex, ey, ez, js, tx, ty, tz, ist⟩ := env
  cases sx <;> cases sy <;> cases sz <;>
    simp [homeAllAxes, homeAxis, attemptedAxes, HomingEnv.seq]

/-! ## Claim C7 — failed single-axis homing

The claim states a failed attempt clears the axis's homed flag and resets its
logical position to zero. The code (`Homing::homeAxis`, failure branch)
resets only the axis's *stepper step counter* to zero and leaves the homed
flags untouched; the dispatcher's G28 handler then re-derives the logical
position from the (stale) flags and re-seats the counters from it. Status:
corrected. -/

/-- C7 (amended): a failed single-axis homing attempt returns `false`,
resets that axis's stepper step counter to zero (so the next attempt can
travel the full range), reports `error:5` — but leaves the homed flags
(including the failed axis's) unchanged rather than clearing them, and no
other axis's counter changes. -/
theorem claim_C7_amended (env : HomingEnv) (a : Axis) (flags : HomedFlags)
    (st : Steppers) (h : env.seq a = false) :
    (homeAxis env a flags st).1 = false ∧
    (homeAxis env a flags st).2.1 = flags ∧
    ((homeAxis env a flags st).2.2.1).get a = 0 ∧
    (∀ b : Axis, b ≠ a → ((homeAxis env a flags st).2.2.1).get b = st.get b) ∧
    Out.error ERR_HOMING_FAILED ∈ (homeAxis env a flags st).2.2.2 := by
  cases a <;>
    (simp only [HomingEnv.seq] at h
     refine ⟨?_, ?_, ?_, ?_, ?_⟩ <;>
       first
         | (intro b hb
            cases b <;> simp_all [homeAxis, HomingEnv.seq, Steppers.get])
         | simp [homeAxis, HomingEnv.seq, Steppers.get, h])

/-- Witness for C7 (amended): the X sequence fails while X was previously
homed; the attempt returns false, zeroes the X counter, keeps the homed
flags — X stays (wrongly) `true` — and leaves Y/Z counters alone. -/
theorem claim_C7_witness :
    failXEnv.seq Axis.X = false ∧
    (homeAxis failXEnv Axis.X ⟨true, false, false⟩ ⟨800, 50, 60⟩).1 = false ∧
    (homeAxis failXEnv Axis.X ⟨true, false, false⟩ ⟨800, 50, 60⟩).2.1 =
      ⟨true, false, false⟩ ∧
    ((homeAxis failXEnv Axis.X ⟨true, false, false⟩ ⟨800, 50, 60⟩).2.2.1).get
        Axis.X = 0 ∧
    ((homeAxis failXEnv Axis.X ⟨true, false, false⟩ ⟨800, 50, 60⟩).2.2.1).get
        Axis.Y = 50 := by
  have h := claim_C7_amended failXEnv Axis.X ⟨true, false, false⟩ ⟨800, 50, 60⟩
    (by decide)
  exact ⟨by decide, h.1, h.2.1, h.2.2.1, h.2.2.2.1 Axis.Y (by decide)⟩

/-- C7 counterexample: X is flagged homed, the carriage sits at x = 5 mm, and
a `G28 X` attempt fails. The claim requires the homed flag cleared and the
logical X position reset to 0; the code leaves the flag `true` and — because
the G28 handler trusts the stale flag — sets the logical X position to
`X_MAX_POS = 234`, not 0. -/
theorem claim_C7_counterexample :
    (execHome failXEnv homedXAt5 ⟨true, false, false, false⟩).1.homed.x =
      true ∧
    (execHome failXEnv homedXAt5 ⟨true, false, false, false⟩).1.pos.x =
      X_MAX_POS ∧
    X_MAX_POS ≠ 0 ∧
    Out.error ERR_HOMING_FAILED ∈
      (execHome failXEnv homedXAt5 ⟨true, false, false, false⟩).2 := by
  norm_num [execHome, homeAxis, homedXAt5, bootState, failXEnv,
    HomingEnv.seq, X_MAX_POS, HOME_DIR_X, ERR_HOMING_FAILED]

/-! ## Claim C6 — endstop-aborted jog resync

The claim states the tripped axis's logical position is resynced to "its
homed zero or max (axisMax when the axis homes toward the max endstop, 0
otherwise)". For X (homes to max) the code uses `X_MAX_POS` and for Y (homes
to min) it uses 0, as claimed; but for Z (homes to min, `HOME_DIR_Z = -1`)
the code resyncs to `PEN_UP_Z = 3` mm, not 0 (`src/main.cpp` line 293).
Status: corrected. -/

theorem homeAxis_diag_mem (env : HomingEnv) (a : Axis) (flags : HomedFlags)
    (st : Steppers) :
    Out.info (InfoMsg.homingAxisDiag a) ∈ (homeAxis env a flags st).2.2.2 := by
  cases a <;> unfold homeAxis <;> split_ifs <;> simp

theorem jogTrigAxis_some_checks (env : HomingEnv) (m : GCodeParam) (a : Axis)
    (h : jogTrigAxis env m = some a) :
    ((jogChecks m).1 || (jogChecks m).2.1 || (jogChecks m).2.2) = true := by
  simp only [jogTrigAxis] at h
  split_ifs at h with h1 h2 h3 <;> simp_all

/-- C6 (amended): when a relative-mode jog is aborted by an endstop and the
dispatcher identifies the tripped axis, it reports the axis, auto-homes it,
and resyncs its logical position — to `X_MAX_POS` for X (which homes toward
the max endstop), to 0 for Y, but to `PEN_UP_Z` (not 0) for Z — and re-seats
all three stepper step counters from the resulting logical position. -/
theorem claim_C6_amended (env : HomingEnv) (s : MachineState) (m : GCodeParam)
    (a : Axis) (hrel : s.absolute_mode = false)
    (hjump : ¬ moveJumpSq s m > MAX_ALLOWED_JUMP_MM ^ 2)
    (ha : jogTrigAxis env m = some a) (hstop : env.jogStopped = true) :
    Out.info (InfoMsg.endstopHitJog a) ∈ (execMove env s m).2 ∧
    Out.info (InfoMsg.homingAxisDiag a) ∈ (execMove env s m).2 ∧
    (execMove env s m).1.pos.get a =
      (match a with
        | Axis.X => if HOME_DIR_X = 1 then X_MAX_POS else 0
        | Axis.Y => if HOME_DIR_Y = 1 then Y_MAX_POS else 0
        | Axis.Z => PEN_UP_Z) ∧
    (execMove env s m).1.steppers =
      ⟨mmToStepsX (execMove env s m).1.pos.x,
        mmToStepsY (execMove env s m).1.pos.y,
        mmToStepsZ (execMove env s m).1.pos.z⟩ := by
  have hchecks := jogTrigAxis_some_checks env m a ha
  simp only [execMove, if_neg hjump, hrel, Bool.false_and,
    Bool.false_eq_true, if_false, Bool.not_false, if_true, hstop, ha]
  rw [if_pos hchecks]
  refine ⟨by simp, by simp [homeAxis_diag_mem], ?_, by simp⟩
  cases a <;> simp [Point3D.get]

/-- Witness for C6 (amended): a `G0 Z-1` jog from `(0, 0, 5)` in relative
mode aborts on the Z endstop; the firmware reports Z, auto-homes it, and
resyncs the logical Z to `PEN_UP_Z`. -/
theorem claim_C6_witness :
    Out.info (InfoMsg.endstopHitJog Axis.Z) ∈
      (execMove jogTripZEnv relStateZ5 { has_z := true, z_val := -1 }).2 ∧
    (execMove jogTripZEnv relStateZ5
        { has_z := true, z_val := -1 }).1.pos.get Axis.Z = PEN_UP_Z := by
  have h := claim_C6_amended jogTripZEnv relStateZ5
    { has_z := true, z_val := -1 } Axis.Z
    (by norm_num [relStateZ5, bootState])
    (by norm_num [moveJumpSq, moveTarget, relStateZ5, bootState,
      MAX_ALLOWED_JUMP_MM])
    (by norm_num [jogTrigAxis, jogChecks, jogTripZEnv, HOME_DIR_X,
      HOME_DIR_Y, HOME_DIR_Z])
    (by norm_num [jogTripZEnv])
  exact ⟨h.1, h.2.2.1⟩

/-- C6 counterexample: the same aborted `G0 Z-1` jog. Z homes toward its
*min* endstop (`HOME_DIR_Z = -1`), so the claim requires the logical Z
position to be resynced to 0; the code sets it to `PEN_UP_Z = 3` mm. -/
theorem claim_C6_counterexample :
    (execMove jogTripZEnv relStateZ5
        { has_z := true, z_val := -1 }).1.pos.z = PEN_UP_Z ∧
    PEN_UP_Z ≠ 0 ∧ HOME_DIR_Z = -1 := by
  refine ⟨?_, by norm_num [PEN_UP_Z], by norm_num [HOME_DIR_Z]⟩
  norm_num [execMove, relStateZ5, bootState, jogTripZEnv, moveTarget,
    moveJumpSq, namesUnhomed, isValidPosition, jogChecks, jogTrigAxis,
    homeAxis, HomingEnv.seq, stepsToMmX, stepsToMmY, stepsToMmZ, PEN_UP_Z,
    HOME_DIR_X, HOME_DIR_Y, HOME_DIR_Z, MAX_ALLOWED_JUMP_MM]

/-! ## Claim C1 — absolute-mode homing and soft-limit checks

The claim says an absolute-mode move that names an un-homed axis "is
rejected with error 6". In the code the Euclidean-jump guard runs *first*
(`src/main.cpp` lines 169–179) and also rejects with error 3, so a move that
both exceeds the maximum jump and names un-homed axes gets error 3, not 6.
Status: corrected — the claimed check order holds for every move that passes
the jump guard. -/

theorem homeAxis_error_codes (env : HomingEnv) (a : Axis) (flags : HomedFlags)
    (st : Steppers) (c : ℕ)
    (h : Out.error c ∈ (homeAxis env a flags st).2.2.2) :
    c = ERR_HOMING_FAILED := by
  cases a <;> simp only [homeAxis, HomingEnv.seq] at h <;> split_ifs at h <;>
    simp_all

theorem execMove_relative_errors (env : HomingEnv) (s : MachineState)
    (m : GCodeParam) (c : ℕ) (hrel : s.absolute_mode = false)
    (hjump : ¬ moveJumpSq s m > MAX_ALLOWED_JUMP_MM ^ 2)
    (h : Out.error c ∈ (execMove env s m).2) : c = ERR_HOMING_FAILED := by
  simp only [execMove, if_neg hjump, hrel, Bool.false_and,
    Bool.false_eq_true, if_false, Bool.not_false, if_true] at h
  rcases htrig : jogTrigAxis env m with _ | a <;> rw [htrig] at h <;>
    split_ifs at h <;>
    simp only [List.mem_append, List.mem_cons, List.mem_singleton,
      List.not_mem_nil] at h
  all_goals simp_all
  all_goals exact homeAxis_error_codes env a s.homed env.intSteps c h

/-- C1 (amended): for every G0/G1 move whose Euclidean jump passes the
max-jump guard, processed in absolute mode: if the command names an axis
whose homed flag is false it is rejected with error 6 (and not 3); otherwise
if the composed target lies outside the soft limits it is rejected with
error 3 (and not 6); in either rejection the whole machine state — in
particular the logical position and the stepper step counters — is
unchanged. In relative mode neither check is applied: no move emits error 6
or error 3. -/
theorem claim_C1_amended (env : HomingEnv) (s : MachineState) (m : GCodeParam)
    (hjump : ¬ moveJumpSq s m > MAX_ALLOWED_JUMP_MM ^ 2) :
    (s.absolute_mode = true → namesUnhomed s m = true →
      (execMove env s m).1 = s ∧
      Out.error ERR_NOT_HOMED ∈ (execMove env s m).2 ∧
      Out.error ERR_OUT_OF_RANGE ∉ (execMove env s m).2) ∧
    (s.absolute_mode = true → namesUnhomed s m = false →
      isValidPosition (moveTarget s m) = false →
      (execMove env s m).1 = s ∧
      Out.error ERR_OUT_OF_RANGE ∈ (execMove env s m).2 ∧
      Out.error ERR_NOT_HOMED ∉ (execMove env s m).2) ∧
    (s.absolute_mode = false →
      Out.error ERR_NOT_HOMED ∉ (execMove env s m).2 ∧
      Out.error ERR_OUT_OF_RANGE ∉ (execMove env s m).2) := by
  refine ⟨?_, ?_, ?_⟩
  · intro habs hnh
    simp only [execMove, if_neg hjump, habs, hnh, Bool.and_self,
      eq_self_iff_true, if_true]
    refine ⟨trivial, ?_, ?_⟩ <;> split_ifs <;>
      simp [ERR_NOT_HOMED, ERR_OUT_OF_RANGE]
  · intro habs hnh hval
    simp only [execMove, if_neg hjump, habs, hnh, hval, Bool.and_false,
      Bool.false_eq_true, if_false, Bool.not_false, Bool.and_true,
      eq_self_iff_true, if_true, Bool.true_and]
    refine ⟨trivial, ?_, ?_⟩ <;> split_ifs <;>
      simp [ERR_NOT_HOMED, ERR_OUT_OF_RANGE]
  · intro hrel
    refine ⟨fun hmem => ?_, fun hmem => ?_⟩ <;>
    · have hc := execMove_relative_errors env s m _ hrel hjump hmem
      simp [ERR_NOT_HOMED, ERR_OUT_OF_RANGE, ERR_HOMING_FAILED] at hc

/-- Witness for C1 (amended): from the boot state (absolute mode, nothing
homed), `G0 X10` passes the jump guard, is rejected with error 6, and leaves
the machine state unchanged. -/
theorem claim_C1_witness :
    (execMove quietEnv bootState { has_x := true, x_val := 10 }).1 =
      bootState ∧
    Out.error ERR_NOT_HOMED ∈
      (execMove quietEnv bootState { has_x := true, x_val := 10 }).2 := by
  have h := claim_C1_amended quietEnv bootState { has_x := true, x_val := 10 }
    (by norm_num [moveJumpSq, moveTarget, bootState, MAX_ALLOWED_JUMP_MM])
  have h1 := h.1 rfl (by simp [namesUnhomed, bootState])
  exact ⟨h1.1, h1.2.1⟩

/-- C1 counterexample: from the boot state, `G0 X1200` names the un-homed X
axis, so the claim requires rejection with error 6 — but the jump guard
fires first and the code responds with error 3 (`Impossible position jump`);
error 6 is never sent. -/
theorem claim_C1_counterexample :
    bootState.absolute_mode = true ∧
    bootState.homed.x = false ∧
    (execMove quietEnv bootState { has_x := true, x_val := 1200 }).2 =
      [Out.error ERR_OUT_OF_RANGE, Out.ok] ∧
    Out.error ERR_NOT_HOMED ∉
      (execMove quietEnv bootState { has_x := true, x_val := 1200 }).2 := by
  have he : (execMove quietEnv bootState
      { has_x := true, x_val := 1200 }).2 =
      [Out.error ERR_OUT_OF_RANGE, Out.ok] := by
    norm_num [execMove, moveTarget, moveJumpSq, bootState, quietEnv,
      MAX_ALLOWED_JUMP_MM]
  refine ⟨rfl, rfl, he, ?_⟩
  rw [he]
  simp [ERR_NOT_HOMED, ERR_OUT_OF_RANGE]

/-! ## Claim C4 — per-axis speed composition

The claim states every axis's delivered speed is
`min(maxVelocity_axis, F × speedFactor/100)` scaled by its share of the move
vector, so no axis is ever commanded above its configured maximum. The code
(`src/main.cpp` lines 203–215) scales the unclamped feed rate and clamps
*only the Z component* (after scaling); X and Y can exceed
`MAX_VELOCITY_XY`. Status: corrected. -/

/-- C4 (amended): for a move of positive length, the per-axis speed equals
the effective feed rate (in mm/s) scaled by that axis's share `|Δ|/‖Δ‖` of
the move vector, with only the Z component clamped — after scaling — to
`MAX_VELOCITY_Z`. Consequently no axis exceeds the commanded feed rate, and
Z never exceeds its configured maximum velocity; X and Y have no such
per-axis cap. -/
theorem claim_C4_amended (dx dy dz dist f : ℚ)
    (hdist : dist > 1 / 1000)
    (hsq : dist ^ 2 = dx ^ 2 + dy ^ 2 + dz ^ 2) (hf : 0 ≤ f) :
    speedDecomp dx dy dz dist f =
      (f * (|dx| / dist), f * (|dy| / dist),
        min (f * (|dz| / dist)) MAX_VELOCITY_Z) ∧
    (speedDecomp dx dy dz dist f).1 ≤ f ∧
    (speedDecomp dx dy dz dist f).2.1 ≤ f ∧
    (speedDecomp dx dy dz dist f).2.2 ≤ MAX_VELOCITY_Z := by
  have hpos : 0 < dist := lt_trans (by norm_num) hdist
  have heq : speedDecomp dx dy dz dist f =
      (f * (|dx| / dist), f * (|dy| / dist),
        min (f * (|dz| / dist)) MAX_VELOCITY_Z) := by
    simp only [speedDecomp, if_pos hdist]
  have share_le : ∀ d : ℚ, d ^ 2 ≤ dist ^ 2 → f * (|d| / dist) ≤ f := by
    intro d hd
    have habs : |d| ≤ dist := by
      nlinarith [abs_nonneg d, sq_abs d]
    calc f * (|d| / dist) ≤ f * 1 := by
          apply mul_le_mul_of_nonneg_left _ hf
          rw [div_le_one hpos]
          exact habs
      _ = f := mul_one f
  refine ⟨heq, ?_, ?_, ?_⟩
  · rw [heq]
    exact share_le dx (by nlinarith [sq_nonneg dy, sq_nonneg dz])
  · rw [heq]
    exact share_le dy (by nlinarith [sq_nonneg dx, sq_nonneg dz])
  · rw [heq]
    exact min_le_right _ _

/-- Witness for C4 (amended) on a pure-X move of 100 mm at an effective feed
rate of 1000 mm/s. -/
theorem claim_C4_witness :
    speedDecomp 100 0 0 100 1000 =
      (1000 * (|(100 : ℚ)| / 100), 1000 * (|(0 : ℚ)| / 100),
        min (1000 * (|(0 : ℚ)| / 100)) MAX_VELOCITY_Z) ∧
    (speedDecomp 100 0 0 100 1000).2.2 ≤ MAX_VELOCITY_Z := by
  have h := claim_C4_amended 100 0 0 100 1000 (by norm_num) (by norm_num)
    (by norm_num)
  exact ⟨h.1, h.2.2.2⟩

/-- C4 counterexample: a pure-X move commanded at `F60000` (1000 mm/s) with
a 100 % speed factor. The code delivers 1000 mm/s on X; the claim's formula
gives `min(MAX_VELOCITY_XY, 1000) × 1 = 100` mm/s. X is commanded at ten
times its configured maximum velocity. -/
theorem claim_C4_counterexample :
    (speedDecomp 100 0 0 100 (effectiveFeedrate 60000 100 / 60)).1 = 1000 ∧
    specClaimedSpeed MAX_VELOCITY_XY 60000 100 100 100 = 100 ∧
    (1000 : ℚ) ≠ 100 ∧ MAX_VELOCITY_XY < 1000 := by
  refine ⟨?_, ?_, by norm_num, by norm_num [MAX_VELOCITY_XY]⟩
  · norm_num [speedDecomp, effectiveFeedrate, MAX_VELOCITY_Z]
  · norm_num [specClaimedSpeed, MAX_VELOCITY_XY]

/-! ## Claim C2 — terminator exactness -/

theorem homeAxis_no_ok (env : HomingEnv) (a : Axis) (flags : HomedFlags)
    (st : Steppers) : Out.ok ∉ (homeAxis env a flags st).2.2.2 := by
  cases a <;> unfold homeAxis <;> split_ifs <;> simp

theorem homeAllAxes_no_ok (env : HomingEnv) (flags : HomedFlags)
    (st : Steppers) : Out.ok ∉ (homeAllAxes env flags st).2.2.2 := by
  simp only [homeAllAxes]
  split_ifs <;> simp [List.mem_append, homeAxis_no_ok]

theorem count_ok_eq_zero_of_not_mem (l : List Out) (h : Out.ok ∉ l) :
    l.count Out.ok = 0 :=
  List.count_eq_zero.mpr h

theorem getLast?_append_ok (l1 l2 : List Out)
    (h : l2.getLast? = some Out.ok) :
    (l1 ++ l2).getLast? = some Out.ok := by
  rw [List.getLast?_append_of_ne_nil l1
    (by intro hnil; rw [hnil] at h; simp at h)]
  exact h

theorem getLast?_cons_ok (a : Out) (l : List Out)
    (h : l.getLast? = some Out.ok) : (a :: l).getLast? = some Out.ok := by
  cases l with
  | nil => simp at h
  | cons b t =>
    rw [List.getLast?_cons_cons]
    exact h

set_option maxHeartbeats 2000000 in
theorem execMove_ok (env : HomingEnv) (s : MachineState) (m : GCodeParam) :
    ((execMove env s m).2).count Out.ok = 1 ∧
    ((execMove env s m).2).getLast? = some Out.ok := by
  have hma : ∀ a : Axis,
      ((homeAxis env a s.homed env.intSteps).2.2.2).count Out.ok = 0 :=
    fun a => count_ok_eq_zero_of_not_mem _ (homeAxis_no_ok env a s.homed _)
  constructor
  · rcases htrig : jogTrigAxis env m with _ | a <;>
      simp only [execMove, htrig] <;> split_ifs <;>
      simp [List.count_append, List.count_cons, hma]
  · rcases htrig : jogTrigAxis env m with _ | a <;>
      simp only [execMove, htrig] <;> split_ifs <;>
      (repeat
        first
          | rfl
          | exact List.getLast?_concat _
          | apply getLast?_append_ok
          | apply getLast?_cons_ok)

set_option maxHeartbeats 2000000 in
theorem execHome_ok (env : HomingEnv) (s : MachineState) (g : G28Params) :
    ((execHome env s g).2).count Out.ok = 1 ∧
    ((execHome env s g).2).getLast? = some Out.ok := by
  have hall : ((homeAllAxes env s.homed s.steppers).2.2.2).count Out.ok = 0 :=
    count_ok_eq_zero_of_not_mem _ (homeAllAxes_no_ok env s.homed s.steppers)
  have hone : ∀ (a : Axis) (f : HomedFlags) (st : Steppers),
      ((homeAxis env a f st).2.2.2).count Out.ok = 0 :=
    fun a f st => count_ok_eq_zero_of_not_mem _ (homeAxis_no_ok env a f st)
  constructor
  · simp only [execHome]
    split_ifs <;> simp [List.count_append, List.count_cons, hall, hone]
  · simp only [execHome]
    split_ifs <;>
      (repeat
        first
          | rfl
          | exact List.getLast?_concat _
          | apply getLast?_append_ok
          | apply getLast?_cons_ok)

/-- C2: terminator exactness. The dispatcher emits exactly one `ok` for
every executed command, on every path including every error path, and the
`ok` is the last line emitted (after any data lines). On the producer side,
a line parsing to `UNKNOWN` gets its error followed by exactly one `ok`; a
well-parsed line arriving on a full queue gets `error:7` followed by exactly
one `ok` and is dropped; a successfully queued command gets nothing from the
producer — its single `ok` comes from the dispatcher after execution. -/
theorem claim_C2 (env : HomingEnv) (s : MachineState)
    (cmd parsed : ParsedGCodeCommand) (q : RingBuffer ParsedGCodeCommand) :
    ((dispatchCommand env s cmd).2).count Out.ok = 1 ∧
    ((dispatchCommand env s cmd).2).getLast? = some Out.ok ∧
    (parsed = ParsedGCodeCommand.UNKNOWN →
      (processIncomingLine parsed q).2 =
        [Out.error ERR_UNKNOWN_COMMAND, Out.ok] ∧
      (processIncomingLine parsed q).1 = q) ∧
    (parsed ≠ ParsedGCodeCommand.UNKNOWN → q.isFull = true →
      (processIncomingLine parsed q).2 =
        [Out.error ERR_BUFFER_OVERFLOW, Out.ok] ∧
      (processIncomingLine parsed q).1 = q) ∧
    (parsed ≠ ParsedGCodeCommand.UNKNOWN → q.isFull = false →
      (processIncomingLine parsed q).2 = [] ∧
      (processIncomingLine parsed q).1 = (q.push parsed).2) := by
  refine ⟨?_, ?_, ?_, ?_, ?_⟩
  · cases cmd <;>
      first
        | exact (execMove_ok env s _).1
        | exact (execHome_ok env s _).1
        | (simp only [dispatchCommand]
           first
             | (split_ifs <;> simp [List.count_cons])
             | simp [List.count_cons])
  · cases cmd <;>
      first
        | exact (execMove_ok env s _).2
        | exact (execHome_ok env s _).2
        | (simp only [dispatchCommand]
           first
             | (split_ifs <;> rfl)
             | rfl)
  · intro hu
    unfold processIncomingLine
    rw [if_pos hu]
    exact ⟨rfl, rfl⟩
  · intro hu hfull
    unfold processIncomingLine
    rw [if_neg hu, if_pos hfull]
    exact ⟨rfl, rfl⟩
  · intro hu hfull
    unfold processIncomingLine
    rw [if_neg hu, if_neg (by simp [hfull])]
    exact ⟨rfl, rfl⟩

/-- Witness for C2 at concrete inputs: `M114` executed by the dispatcher
emits exactly one `ok`; an `UNKNOWN` line gets `error:1` then `ok` from the
producer; a `G90` on a full queue gets `error:7` then `ok`; a `G90` on an
empty queue is queued with no producer output. -/
theorem claim_C2_witness :
    ((dispatchCommand quietEnv bootState ParsedGCodeCommand.M114).2).count
        Out.ok = 1 ∧
    (processIncomingLine ParsedGCodeCommand.UNKNOWN
        (RingBuffer.init ParsedGCodeCommand.UNKNOWN)).2 =
      [Out.error ERR_UNKNOWN_COMMAND, Out.ok] ∧
    (processIncomingLine ParsedGCodeCommand.G90 fullQueue).2 =
      [Out.error ERR_BUFFER_OVERFLOW, Out.ok] ∧
    (processIncomingLine ParsedGCodeCommand.G90
        (RingBuffer.init ParsedGCodeCommand.UNKNOWN)).2 = [] := by
  have h1 := claim_C2 quietEnv bootState ParsedGCodeCommand.M114
    ParsedGCodeCommand.UNKNOWN (RingBuffer.init ParsedGCodeCommand.UNKNOWN)
  have h2 := claim_C2 quietEnv bootState ParsedGCodeCommand.M114
    ParsedGCodeCommand.G90 fullQueue
  have h3 := claim_C2 quietEnv bootState ParsedGCodeCommand.M114
    ParsedGCodeCommand.G90 (RingBuffer.init ParsedGCodeCommand.UNKNOWN)
  exact ⟨h1.1, (h1.2.2.1 rfl).1, (h2.2.2.2.1 (by decide) (by decide)).1,
    (h3.2.2.2.2 (by decide) (by decide)).1⟩

end PenPlotter
